import Mathlib

/-!
Shallow embedding of the TickTick MCP server's task query/filter pipeline,
formatting functions and tool handlers (ticktick_mcp/src/server.py), with the
data model of ticktick_mcp/src/models.py.

Modelling conventions:
  * a Python dict record is a structure with `Option` fields; `none` stands
    for an absent key or a `None` value (the two coincide observably in every
    place a claim touches, except where noted);
  * timezone-aware datetimes are modelled as `Int` seconds since the epoch
    (their comparison order and `timedelta(days=7)` arithmetic agree with
    this); the stdlib parser `datetime.fromisoformat` is an external
    collaborator and is passed in as a function `String → Option Int`
    (`none` models the `ValueError` it raises on unparseable input);
  * the upstream `TickTickClient` is an external collaborator: its calls are
    fields of a `Client` structure returning `Except String _`, where
    `.error` models the raised `ValueError` / returned error dict;
  * `str.lower` is modelled with `Char.toLower` (all data involved is ASCII).
-/

/-- Python truthiness of an optional string: `None` and `""` are falsy. -/
def truthyS : Option String → Bool
  | none => false
  | some s => !(s == "")

/-- Keeps an optional string only when it is Python-truthy, as in the many
`if task.get(...):` guards of server.py. -/
def optTruthy : Option String → Option String
  | none => none
  | some s => if s == "" then none else some s

/-- Python `f"{x}"` of a value that may be `None`. -/
def pyStr : Option String → String
  | none => "None"
  | some s => s

/-- Python `str.lower()` (ASCII data). -/
def pyLower (s : String) : String :=
  String.mk (s.data.map Char.toLower)

/-- Boolean substring test: models Python's `needle in haystack`. -/
def strHasSub (s pat : String) : Bool :=
  decide (pat.data <:+: s.data)

/-- Splits a character list at newline characters (for line-level assertions
about the formatted output). -/
def splitNl : List Char → List (List Char)
  | [] => [[]]
  | c :: cs =>
    if c = '\n' then [] :: splitNl cs
    else
      match splitNl cs with
      | [] => [[c]]
      | l :: ls => (c :: l) :: ls

/-- Whether `line` occurs as one full line of `s`. -/
def hasLine (s line : String) : Bool :=
  (splitNl s.data).contains line.data

/-- Subtask checklist item, as the dict produced from models.TaskItem. -/
structure TaskItemRec where
  id : Option String := none
  status : Option Int := none
  title : Option String := none

/-- Task record: the dict view of a task as server.py reads it (either a raw
client dict in get_task, or `Task.model_dump(by_alias=True, mode="json")` in
the list/search pipeline, where `id`, `title`, `projectId` and `tags` are
always present and `content`/`status`/`priority`/`dueDate` may be `none`). -/
structure TaskRec where
  id : Option String := none
  title : Option String := none
  projectId : Option String := none
  url : Option String := none
  startDate : Option String := none
  dueDate : Option String := none
  priority : Option Int := none
  status : Option Int := none
  tags : List String := []
  content : Option String := none
  items : List TaskItemRec := []

/-- Project record as server.py touches it (`id`/`name` plus the optional
display fields of format_project). -/
structure ProjectRec where
  id : Option String := none
  name : Option String := none
  color : Option String := none
  viewMode : Option String := none
  closed : Option Bool := none
  kind : Option String := none

/-- server.py TaskPriority.is_valid: the accepted priority codes. -/
def TaskPriority.is_valid (v : Int) : Bool :=
  v == 0 || v == 1 || v == 3 || v == 5

/-- server.py TaskPriority.label: 0 is rendered "None", the other members by
their title-cased names, an unrecognized value by its decimal string. -/
def TaskPriority.label (v : Int) : String :=
  if v == 0 then "None"
  else if v == 1 then "Low"
  else if v == 3 then "Medium"
  else if v == 5 then "High"
  else toString v

/-- server.py _normalize_date_input: a date string with no "T" gets
"T00:00:00+0000" appended. -/
def _normalize_date_input (date_str : String) : String :=
  if date_str.contains 'T' then date_str
  else date_str ++ "T00:00:00+0000"

/-- server.py task_url. -/
def task_url (project_id task_id : String) : String :=
  "https://ticktick.com/webapp/#p/" ++ project_id ++ "/tasks/" ++ task_id

/-- server.py ensure_inbox_project_included (the Python function mutates the
list in place; the embedding returns the updated list). -/
def ensure_inbox_project_included (projects : List ProjectRec) : List ProjectRec :=
  if projects.any (fun p => p.id == some "inbox") then projects
  else projects ++ [{ id := some "inbox", name := some "Inbox" }]

/-- The synthetic inbox record ensure_inbox_project_included appends. -/
def inboxProject : ProjectRec :=
  { id := some "inbox", name := some "Inbox" }

/-- Priority display used by format_task: Python `task.get('priority', 0)`
yields 0 when the key is absent (label "None") and `None` when the value is
null (f-string "None"); either way an absent priority renders "None". -/
def priorityDisplay : Option Int → String
  | none => "None"
  | some v => TaskPriority.label v

/-- Checkbox glyph for a subtask item, checked iff its status is 1. -/
def checkbox (st : Option Int) : String :=
  if st == some 1 then "✓" else "□"

/-- The numbered subtask lines of format_task, `i` the 1-based index. -/
def format_items : Nat → List TaskItemRec → String
  | _, [] => ""
  | i, it :: rest =>
    toString i ++ ". [" ++ checkbox it.status ++ "] " ++ it.title.getD "No title"
      ++ "\n" ++ format_items (i + 1) rest

/-- format_task segment: the always-present ID line. -/
def seg_id (t : TaskRec) : String := "ID: " ++ t.id.getD "No ID" ++ "\n"

/-- format_task segment: the always-present Title line. -/
def seg_title (t : TaskRec) : String := "Title: " ++ t.title.getD "No title" ++ "\n"

/-- format_task segment: the always-present Project ID line. -/
def seg_project (t : TaskRec) : String := "Project ID: " ++ t.projectId.getD "None" ++ "\n"

/-- format_task segment: URL line, only when the url field is truthy. -/
def seg_url (t : TaskRec) : String :=
  match optTruthy t.url with
  | some u => "URL: " ++ u ++ "\n"
  | none => ""

/-- format_task segment: Start Date line, only when present. -/
def seg_start (t : TaskRec) : String :=
  match optTruthy t.startDate with
  | some d => "Start Date: " ++ d ++ "\n"
  | none => ""

/-- format_task segment: Due Date line, only when present. -/
def seg_due (t : TaskRec) : String :=
  match optTruthy t.dueDate with
  | some d => "Due Date: " ++ d ++ "\n"
  | none => ""

/-- format_task segment: the always-present Priority line. -/
def seg_priority (t : TaskRec) : String :=
  "Priority: " ++ priorityDisplay t.priority ++ "\n"

/-- format_task segment: the always-present Status line ("Completed" iff the
status value equals 2, otherwise "Active", unknown codes included). -/
def seg_status (t : TaskRec) : String :=
  "Status: " ++ (if t.status == some 2 then "Completed" else "Active") ++ "\n"

/-- format_task segment: Tags line, only when the tag list is non-empty. -/
def seg_tags (t : TaskRec) : String :=
  if t.tags.isEmpty then "" else "Tags: " ++ String.intercalate ", " t.tags ++ "\n"

/-- format_task segment: Content block, only when content is truthy. -/
def seg_content (t : TaskRec) : String :=
  match optTruthy t.content with
  | some c => "\nContent:\n" ++ c ++ "\n"
  | none => ""

/-- format_task segment: Subtasks block, only when items is non-empty. -/
def seg_items (t : TaskRec) : String :=
  if t.items.isEmpty then ""
  else "\nSubtasks (" ++ toString t.items.length ++ "):\n" ++ format_items 1 t.items

/-- server.py format_task: the segments in the source's append order. -/
def format_task (t : TaskRec) : String :=
  seg_id t ++ seg_title t ++ seg_project t ++ seg_url t ++ seg_start t ++ seg_due t
    ++ seg_priority t ++ seg_status t ++ seg_tags t ++ seg_content t ++ seg_items t

/-- server.py format_project. -/
def format_project (p : ProjectRec) : String :=
  "Name: " ++ p.name.getD "No name" ++ "\n"
    ++ "ID: " ++ p.id.getD "No ID" ++ "\n"
    ++ (match optTruthy p.color with
        | some c => "Color: " ++ c ++ "\n"
        | none => "")
    ++ (match optTruthy p.viewMode with
        | some v => "View Mode: " ++ v ++ "\n"
        | none => "")
    ++ (match p.closed with
        | some b => "Closed: " ++ (if b then "Yes" else "No") ++ "\n"
        | none => "")
    ++ (match optTruthy p.kind with
        | some k => "Kind: " ++ k ++ "\n"
        | none => "")

/-- The status filter step of get_tasks (server.py lines 279-284): applied
only when a status argument is given; "active" drops tasks whose status
equals 2, "completed" drops tasks whose status differs from 2. -/
def statusFilterPass (status : Option String) (status_value : Option Int) : Bool :=
  match status with
  | none => true
  | some s =>
    let normalized_status := pyLower s
    if normalized_status == "active" && status_value == some 2 then false
    else if normalized_status == "completed" && !(status_value == some 2) then false
    else true

/-- The relative-date filter step of get_tasks (server.py lines 286-307),
applied only when overdue_only or due_in_next_7_days is set: completed tasks
are dropped, a falsy or unparseable due date drops the task, and the task is
kept iff it is overdue (due strictly before now) under overdue_only, or due
between now and now plus 7 days inclusive under due_in_next_7_days, the two
conditions OR-combined. `fromiso` models datetime.fromisoformat. -/
def relDateFilterPass (fromiso : String → Option Int) (now : Int)
    (overdue_only due_in_next_7_days : Bool) (task : TaskRec) : Bool :=
  if overdue_only || due_in_next_7_days then
    if task.status == some 2 then false
    else
      match optTruthy task.dueDate with
      | none => false
      | some due_date_str =>
        match fromiso (due_date_str.replace "Z" "+00:00") with
        | none => false
        | some due_dt =>
          let is_overdue := decide (due_dt < now)
          let is_next_7_days := decide (now ≤ due_dt) && decide (due_dt ≤ now + 7 * 86400)
          (overdue_only && is_overdue) || (due_in_next_7_days && is_next_7_days)
  else true

/-- The tag filter step shared verbatim by get_tasks (lines 309-312) and
search_tasks (lines 643-647): with a non-empty filter list the task must have
some tag equal, after lowercasing both sides, to some filter tag. -/
def tagFilterPass (tags : List String) (task_tags : List String) : Bool :=
  if tags.isEmpty then true
  else
    let lowered := task_tags.map pyLower
    tags.any (fun tag => lowered.contains (pyLower tag))

/-- The conjunction of the three get_tasks filter steps, in the source's
order (a `continue` in the Python loop is a failed conjunct). -/
def getTasksKeep (fromiso : String → Option Int) (now : Int)
    (overdue_only due_in_next_7_days : Bool) (status : Option String)
    (tags : List String) (task : TaskRec) : Bool :=
  statusFilterPass status task.status
    && relDateFilterPass fromiso now overdue_only due_in_next_7_days task
    && tagFilterPass tags task.tags

/-- The upstream TickTickClient as the two handlers use it: get_projects
(error dict modelled as `.error`), and get_project_with_data_model whose
`.error` models the ValueError the per-project `try` of server.py catches. -/
structure Client where
  projects : Except String (List ProjectRec)
  projectTasks : Option String → Except String (List TaskRec)

/-- Attaches the computed web URL to a task dict, as both pipeline loops do
(`task_dict["url"] = task_url(pid, task_dict.get("id"))`; a missing id or
project id renders as Python's "None" inside the f-string). -/
def attachUrl (pid : Option String) (t : TaskRec) : TaskRec :=
  { t with url := some (task_url (pyStr pid) (pyStr t.id)) }

/-- The project-collection loop shared by get_tasks (lines 250-265) and
search_tasks (lines 612-627): a project is skipped when a truthy project_id
is given and differs from its id, a per-project fetch failure (the caught
ValueError) is skipped, and the remaining task lists are concatenated in
project order with URLs attached. -/
def fetchTasks (client : Client) (project_id : Option String) :
    List ProjectRec → List TaskRec
  | [] => []
  | proj :: rest =>
    let restTasks := fetchTasks client project_id rest
    if truthyS project_id && !(proj.id == project_id) then restTasks
    else
      match client.projectTasks proj.id with
      | .error _ => restTasks
      | .ok ts => ts.map (attachUrl proj.id) ++ restTasks

/-- What one project contributes to the aggregation (for stating the
partial-failure policy): nothing when skipped or failing, its URL-attached
tasks otherwise. -/
def perProject (client : Client) (project_id : Option String)
    (proj : ProjectRec) : List TaskRec :=
  if truthyS project_id && !(proj.id == project_id) then []
  else
    match client.projectTasks proj.id with
    | .error _ => []
    | .ok ts => ts.map (attachUrl proj.id)

/-- Task collection of both handlers: list projects (an upstream error dict
aborts), inject the inbox project, then run the collection loop. -/
def fetchAllTasks (client : Client) (project_id : Option String) :
    Except String (List TaskRec) :=
  match client.projects with
  | .error e => .error e
  | .ok projects =>
    .ok (fetchTasks client project_id (ensure_inbox_project_included projects))

/-- The no-result message of get_tasks (both at lines 267-270 and 316-319):
it names the project when a truthy project_id was given. -/
def noTasksMsg (project_id : Option String) : String :=
  match project_id with
  | some p => if p == "" then "No tasks found." else "No tasks found in project '" ++ p ++ "'."
  | none => "No tasks found."

/-- server.py get_tasks (the initialized-client path, lines 242-322): collect
tasks, return the no-result message when nothing was fetched, filter, return
the no-result message when everything was filtered out, else the formatted
tasks joined by the separator line. -/
def get_tasks (client : Client) (fromiso : String → Option Int) (now : Int)
    (project_id : Option String) (overdue_only due_in_next_7_days : Bool)
    (status : Option String) (tags : List String) : String :=
  match fetchAllTasks client project_id with
  | .error e => "Error getting projects for task retrieval: " ++ e
  | .ok all_tasks =>
    if all_tasks.isEmpty then noTasksMsg project_id
    else
      let filtered_tasks := all_tasks.filter
        (getTasksKeep fromiso now overdue_only due_in_next_7_days status tags)
      if filtered_tasks.isEmpty then noTasksMsg project_id
      else "Found tasks:\n\n" ++ String.intercalate "\n---\n" (filtered_tasks.map format_task)

/-- The keyword/tag filter loop of search_tasks (lines 630-649). In this
pipeline every task dict comes from model_dump, so the content key is always
present; on a task whose content value is null, Python's
`task.get('content', '').lower()` raises AttributeError, which the tool's
outer handler turns into an error string — modelled as `.error` with the
interpreter's message. -/
def searchFilter (keywords tags : List String) :
    List TaskRec → Except String (List TaskRec)
  | [] => .ok []
  | task :: rest =>
    match task.content with
    | none => .error "'NoneType' object has no attribute 'lower'"
    | some c =>
      let title := pyLower (task.title.getD "")
      let content := pyLower c
      let matches_keywords := keywords.isEmpty
        || keywords.any (fun k => strHasSub title (pyLower k) || strHasSub content (pyLower k))
      if !matches_keywords then searchFilter keywords tags rest
      else if !(tagFilterPass tags task.tags) then searchFilter keywords tags rest
      else
        match searchFilter keywords tags rest with
        | .error e => .error e
        | .ok kept => .ok (task :: kept)

/-- server.py search_tasks (the initialized-client path, lines 604-655):
collect tasks across projects, filter by keywords and tags (there is no
status parameter and no status filtering), and return the fixed no-result
message or the formatted tasks joined by the separator line. -/
def search_tasks (client : Client) (keywords : List String)
    (project_id : Option String) (tags : List String) : String :=
  match fetchAllTasks client project_id with
  | .error e => "Error getting projects for task search: " ++ e
  | .ok all_tasks =>
    match searchFilter keywords tags all_tasks with
    | .error e => "Error searching tasks: " ++ e
    | .ok filtered_tasks =>
      if filtered_tasks.isEmpty then "No tasks found matching the provided keywords."
      else "Found tasks:\n\n" ++ String.intercalate "\n---\n" (filtered_tasks.map format_task)

/-- server.py get_task (the initialized-client path, lines 341-347): fetch
the single task (`.error` models the upstream error dict), attach the URL,
and render it with format_task — the one and only display path, with no
special treatment of unknown status codes. -/
def get_task (fetch : String → String → Except String TaskRec)
    (project_id task_id : String) : String :=
  match fetch project_id task_id with
  | .error e => "Error fetching task: " ++ e
  | .ok task => format_task (attachUrl (some project_id) task)

/-- Arguments of the create_task tool (priority defaults to 0 in the Python
signature). -/
structure CreateTaskArgs where
  title : String
  project_id : String
  content : Option String := none
  start_date : Option String := none
  due_date : Option String := none
  priority : Int := 0

/-- Arguments of the update_task tool (every field optional). -/
structure UpdateTaskArgs where
  task_id : String
  project_id : String
  title : Option String := none
  content : Option String := none
  start_date : Option String := none
  due_date : Option String := none
  priority : Option Int := none

/-- The `if start_date: start_date = _normalize_date_input(start_date)` step
of create_task/update_task: a falsy value is left untouched. -/
def normalizeIfTruthy : Option String → Option String
  | none => none
  | some s => if s == "" then some s else some (_normalize_date_input s)

/-- The date-validation loop of create_task/update_task: a truthy date string
fails when datetime.fromisoformat rejects it after the trailing-Z
replacement. -/
def dateInvalid (fromiso : String → Option Int) : Option String → Bool
  | none => false
  | some s => if s == "" then false else (fromiso (s.replace "Z" "+00:00")).isNone

/-- server.py create_task (the initialized-client path, lines 378-412):
priority is validated first, dates are normalized then validated
(start_date before due_date), and only then is the upstream client called. -/
def create_task (fromiso : String → Option Int)
    (client : CreateTaskArgs → Except String TaskRec) (args : CreateTaskArgs) : String :=
  if !(TaskPriority.is_valid args.priority) then
    "Invalid priority. Must be 0 (None), 1 (Low), 3 (Medium), or 5 (High)."
  else
    let start_date := normalizeIfTruthy args.start_date
    let due_date := normalizeIfTruthy args.due_date
    if dateInvalid fromiso start_date then
      "Invalid start_date format. Use ISO format: YYYY-MM-DDThh:mm:ss+0000"
    else if dateInvalid fromiso due_date then
      "Invalid due_date format. Use ISO format: YYYY-MM-DDThh:mm:ss+0000"
    else
      match client { args with start_date := start_date, due_date := due_date } with
      | .error e => "Error creating task: " ++ e
      | .ok task =>
        "Task created successfully:\n\n" ++ format_task (attachUrl (some args.project_id) task)

/-- server.py update_task (the initialized-client path, lines 438-477): same
validation pipeline as create_task, with priority validated only when
given. -/
def update_task (fromiso : String → Option Int)
    (client : UpdateTaskArgs → Except String TaskRec) (args : UpdateTaskArgs) : String :=
  if (match args.priority with
      | some p => !(TaskPriority.is_valid p)
      | none => false) then
    "Invalid priority. Must be 0 (None), 1 (Low), 3 (Medium), or 5 (High)."
  else
    let start_date := normalizeIfTruthy args.start_date
    let due_date := normalizeIfTruthy args.due_date
    if dateInvalid fromiso start_date then
      "Invalid start_date format. Use ISO format: YYYY-MM-DDThh:mm:ss+0000"
    else if dateInvalid fromiso due_date then
      "Invalid due_date format. Use ISO format: YYYY-MM-DDThh:mm:ss+0000"
    else
      match client { args with start_date := start_date, due_date := due_date } with
      | .error e => "Error updating task: " ++ e
      | .ok task =>
        "Task updated successfully:\n\n" ++ format_task (attachUrl (some args.project_id) task)

/-- server.py create_project (the initialized-client path, lines 543-560):
view_mode is validated against the three accepted values before the client
is called. -/
def create_project (client : String → String → String → Except String ProjectRec)
    (name color view_mode : String) : String :=
  if !(["list", "kanban", "timeline"].contains view_mode) then
    "Invalid view_mode. Must be one of: list, kanban, timeline."
  else
    match client name color view_mode with
    | .error e => "Error creating project: " ++ e
    | .ok project => "Project created successfully:\n\n" ++ format_project project

/-- The numbered project blocks of get_projects, `i` the 1-based index. -/
def format_projects_list : Nat → List ProjectRec → String
  | _, [] => ""
  | i, p :: rest =>
    "Project " ++ toString i ++ ":\n" ++ format_project p ++ "\n"
      ++ format_projects_list (i + 1) rest

/-- server.py get_projects (the initialized-client path, lines 173-191): list
projects (an upstream error dict aborts), inject the inbox project, report
an empty listing, else render the numbered project blocks. -/
def get_projects (client : Client) : String :=
  match client.projects with
  | .error e => "Error fetching projects: " ++ e
  | .ok projects =>
    let projects := ensure_inbox_project_included projects
    if projects.isEmpty then "No projects found."
    else
      "Found " ++ toString projects.length ++ " projects:\n\n"
        ++ format_projects_list 1 projects

/-- server.py get_project (the initialized-client path, lines 205-210). -/
def get_project (fetch : String → Except String ProjectRec) (project_id : String) : String :=
  match fetch project_id with
  | .error e => "Error fetching project: " ++ e
  | .ok project => format_project project

/-- server.py complete_task (the initialized-client path, lines 492-497). -/
def complete_task (call : String → String → Except String Unit)
    (project_id task_id : String) : String :=
  match call project_id task_id with
  | .error e => "Error completing task: " ++ e
  | .ok _ => "Task " ++ task_id ++ " marked as complete."

/-- server.py delete_task (the initialized-client path, lines 515-520). -/
def delete_task (call : String → String → Except String Unit)
    (project_id task_id : String) : String :=
  match call project_id task_id with
  | .error e => "Error deleting task: " ++ e
  | .ok _ => "Task " ++ task_id ++ " deleted successfully."

/-- server.py delete_project (the initialized-client path, lines 574-579). -/
def delete_project (call : String → Except String Unit) (project_id : String) : String :=
  match call project_id with
  | .error e => "Error deleting project: " ++ e
  | .ok _ => "Project " ++ project_id ++ " deleted successfully."

/-!
Concrete fixture: the FakeTickTickClient of test_search_tasks.py, with one
project "project-1" holding five tasks (statuses 0, 0, 0, 2 and 5). The
pipeline tasks carry the fields model_dump produces; the raw fixtures below
are the client dicts get_task returns (dates in the test's "+0000" form).
-/

/-- Fixture task-1 "Buy milk" (active). -/
def fixtureTask1 : TaskRec :=
  { id := some "task-1", title := some "Buy milk", projectId := some "project-1",
    content := some "Get almond milk and bread",
    startDate := some "2024-01-01T03:00:00Z", dueDate := some "2024-01-02T03:00:00Z",
    tags := ["responsibility", "week1"], status := some 0 }

/-- Fixture task-2 "Write report" (active). -/
def fixtureTask2 : TaskRec :=
  { id := some "task-2", title := some "Write report", projectId := some "project-1",
    content := some "Prepare quarterly work report",
    startDate := some "2024-01-03T03:00:00Z", dueDate := some "2024-01-04T03:00:00Z",
    tags := ["30Day"], status := some 0 }

/-- Fixture task-3 "Meeting with team" (active, no tags). -/
def fixtureTask3 : TaskRec :=
  { id := some "task-3", title := some "Meeting with team", projectId := some "project-1",
    content := some "Weekly sync",
    startDate := some "2024-01-05T03:00:00Z", dueDate := some "2024-01-06T03:00:00Z",
    tags := [], status := some 0 }

/-- Fixture task-4 "Completed task" (status 2). -/
def fixtureTask4 : TaskRec :=
  { id := some "task-4", title := some "Completed task", projectId := some "project-1",
    content := some "This task is done",
    startDate := some "2024-01-07T03:00:00Z", dueDate := some "2024-01-08T03:00:00Z",
    tags := ["week1"], status := some 2 }

/-- Fixture task-5 "Abandoned task" (status 5, an unknown code). -/
def fixtureTask5 : TaskRec :=
  { id := some "task-5", title := some "Abandoned task", projectId := some "project-1",
    content := some "This task was abandoned",
    startDate := some "2024-01-09T03:00:00Z", dueDate := some "2024-01-10T03:00:00Z",
    tags := ["week1"], status := some 5 }

/-- The fixture client: one project, five tasks, every other project id
(the injected inbox included) holding no tasks. -/
def fixtureClient : Client :=
  { projects := .ok [{ id := some "project-1", name := some "Project 1" }],
    projectTasks := fun pid =>
      if pid == some "project-1" then
        .ok [fixtureTask1, fixtureTask2, fixtureTask3, fixtureTask4, fixtureTask5]
      else .ok [] }

/-- Raw task-5 dict as FakeTickTickClient.get_task returns it (the test's
literal "+0000" date strings, no url key). -/
def rawTask5 : TaskRec :=
  { id := some "task-5", title := some "Abandoned task", projectId := some "project-1",
    content := some "This task was abandoned",
    startDate := some "2024-01-09T03:00:00+0000", dueDate := some "2024-01-10T03:00:00+0000",
    tags := ["week1"], status := some 5 }

/-- Single-task fetcher over the fixture, as get_task consumes it. -/
def fixtureFetchTask (project_id task_id : String) : Except String TaskRec :=
  if project_id == "project-1" && task_id == "task-5" then .ok rawTask5
  else .error "task not found"

/-!
Claim theorems. General-purpose helper lemmas come first.
-/

/-- Substring containment via a string-level decomposition. -/
theorem strHasSub_of_eq {s a b c : String} (h : s = a ++ (b ++ c)) :
    strHasSub s b = true := by
  have : b.data <:+: s.data := by
    refine ⟨a.data, c.data, ?_⟩
    simp [h]
  simpa [strHasSub] using this

/-- The collection loop is the concatenation of each project's contribution. -/
theorem fetchTasks_eq_flatMap (client : Client) (project_id : Option String) :
    ∀ l : List ProjectRec,
      fetchTasks client project_id l = l.flatMap (perProject client project_id) := by
  intro l
  induction l with
  | nil => simp [fetchTasks]
  | cons proj rest ih =>
    by_cases hskip : (truthyS project_id && !(proj.id == project_id)) = true
    · simp [fetchTasks, perProject, hskip, ih]
    · rw [Bool.not_eq_true] at hskip
      cases hpt : client.projectTasks proj.id with
      | error e => simp [fetchTasks, perProject, hskip, hpt, ih]
      | ok ts => simp [fetchTasks, perProject, hskip, hpt, ih]

/-- C1: contrary to the claim (and to test_task_status_display, which asserts
"Status: Unknown (5)"), the get_task display path renders a task whose status
is 5 with the same bulk formatter as every other path, so its output carries
the line "Status: Active" and no "Status: Unknown (5)" line. -/
theorem get_task_status5_renders_active :
    hasLine (get_task fixtureFetchTask "project-1" "task-5") "Status: Active" = true ∧
    hasLine (get_task fixtureFetchTask "project-1" "task-5") "Status: Unknown (5)" = false ∧
    rawTask5.status = some 5 := by
  refine ⟨?_, ?_, rfl⟩ <;> rfl

/-- C2: contrary to the claim, search_tasks with empty keywords, empty tags
and no status argument returns every fetched task in fetch order — the
completed fixture task (status 2) included; there is no default exclusion of
completed tasks. -/
theorem search_tasks_default_includes_completed :
    search_tasks fixtureClient [] none [] =
      "Found tasks:\n\n" ++ String.intercalate "\n---\n"
        ([fixtureTask1, fixtureTask2, fixtureTask3, fixtureTask4, fixtureTask5].map
          (fun t => format_task (attachUrl (some "project-1") t))) ∧
    hasLine (search_tasks fixtureClient [] none []) "Title: Completed task" = true ∧
    fixtureTask4.status = some 2 := by
  refine ⟨?_, ?_, rfl⟩ <;> rfl

/-- A given status "active" keeps exactly the tasks whose status is not 2. -/
theorem statusFilterPass_active (v : Option Int) :
    statusFilterPass (some "active") v = !(v == some 2) := by
  cases v with
  | none => rfl
  | some n =>
    by_cases h : n = 2
    · subst h; rfl
    · simp only [statusFilterPass]
      have h1 : (some n == (some 2 : Option Int)) = false := by
        simp [h]
      simp [h1, show pyLower "active" = "active" from rfl,
        show pyLower "active" ≠ "completed" from by decide]

/-- A given status "completed" keeps exactly the tasks whose status is 2. -/
theorem statusFilterPass_completed (v : Option Int) :
    statusFilterPass (some "completed") v = (v == some 2) := by
  cases v with
  | none => rfl
  | some n =>
    by_cases h : n = 2
    · subst h; rfl
    · simp only [statusFilterPass]
      have h1 : (some n == (some 2 : Option Int)) = false := by
        simp [h]
      simp [h1, show pyLower "completed" = "completed" from rfl,
        show pyLower "completed" ≠ "active" from by decide]

/-- C3: the relative-date filters of get_tasks apply only when a flag is set
(with neither flag, and status/tags defaults, every task passes); when one
is, a completed task is dropped, a task passes iff its due date parses and is
strictly before now (overdue_only) or between now and now plus 7 days
inclusive (due_in_next_7_days), the two flags OR-combined, and a missing or
unparseable due date excludes the task. -/
theorem get_tasks_relative_date_filter_spec :
    ∀ (fromiso : String → Option Int) (now : Int) (ov d7 : Bool) (task : TaskRec),
      getTasksKeep fromiso now ov d7 none [] task
          = relDateFilterPass fromiso now ov d7 task ∧
      (relDateFilterPass fromiso now ov d7 task = true ↔
        ((ov = false ∧ d7 = false) ∨
          (task.status ≠ some 2 ∧ ∃ s due, optTruthy task.dueDate = some s ∧
            fromiso (s.replace "Z" "+00:00") = some due ∧
            ((ov = true ∧ due < now) ∨
              (d7 = true ∧ now ≤ due ∧ due ≤ now + 7 * 86400))))) := by
  intro fromiso now ov d7 task
  constructor
  · simp [getTasksKeep, statusFilterPass, tagFilterPass]
  · have main : ∀ (b1 b2 : Bool), (b1 || b2) = true →
        (relDateFilterPass fromiso now b1 b2 task = true ↔
          (task.status ≠ some 2 ∧ ∃ s due, optTruthy task.dueDate = some s ∧
            fromiso (s.replace "Z" "+00:00") = some due ∧
            ((b1 = true ∧ due < now) ∨
              (b2 = true ∧ now ≤ due ∧ due ≤ now + 7 * 86400)))) := by
      intro b1 b2 hb
      by_cases hst : (task.status == some 2) = true
      · have hst' : task.status = some 2 := by simpa using hst
        simp [relDateFilterPass, hb, hst, hst']
      · have hne : task.status ≠ some 2 := by simpa using hst
        rw [Bool.not_eq_true] at hst
        cases hdt : optTruthy task.dueDate with
        | none => simp [relDateFilterPass, hb, hst, hdt, hne]
        | some s =>
          cases hfi : fromiso (s.replace "Z" "+00:00") with
          | none => simp [relDateFilterPass, hb, hst, hdt, hfi, hne]
          | some due =>
            simp [relDateFilterPass, hb, hst, hdt, hfi, hne, decide_eq_true_eq]
    cases hov : ov <;> cases hd7 : d7
    · simp [relDateFilterPass]
    · rw [main false true rfl]; simp
    · rw [main true false rfl]; simp
    · rw [main true true rfl]; simp

/-- C4: the get_tasks status filter keeps everything when the argument is
omitted, keeps exactly the non-2 statuses for "active", keeps exactly status
2 for "completed"; with the other filters at their defaults the whole keep
predicate reduces to this step. -/
theorem get_tasks_status_filter_spec :
    ∀ v : Option Int,
      statusFilterPass none v = true ∧
      (statusFilterPass (some "active") v = true ↔ v ≠ some 2) ∧
      (statusFilterPass (some "completed") v = true ↔ v = some 2) ∧
      ∀ (fromiso : String → Option Int) (now : Int) (st : Option String) (task : TaskRec),
        getTasksKeep fromiso now false false st [] task = statusFilterPass st task.status := by
  intro v
  refine ⟨rfl, ?_, ?_, ?_⟩
  · rw [statusFilterPass_active]; simp
  · rw [statusFilterPass_completed]; simp
  · intro fromiso now st task
    simp [getTasksKeep, relDateFilterPass, tagFilterPass]

/-- C5: the shared tag filter passes iff the filter list is empty or some
filter tag equals some task tag after lowercasing both (exact whole-string
equality, never substring): "week" does not match a task tagged "week1",
while "WEEK1" does. -/
theorem tag_filter_case_insensitive_exact :
    ∀ (tags task_tags : List String),
      (tagFilterPass tags task_tags = true ↔
        (tags = [] ∨ ∃ ft ∈ tags, ∃ tt ∈ task_tags, pyLower ft = pyLower tt)) ∧
      tagFilterPass ["week"] ["week1"] = false ∧
      tagFilterPass ["WEEK1"] ["week1"] = true := by
  intro tags task_tags
  refine ⟨?_, by rfl, by rfl⟩
  by_cases h : tags = []
  · subst h; simp [tagFilterPass]
  · have hne : tags.isEmpty = false := by
      simpa [List.isEmpty_iff] using h
    simp only [tagFilterPass, hne, Bool.false_eq_true, if_false]
    rw [List.any_eq_true]
    simp only [List.elem_iff, List.mem_map]
    constructor
    · rintro ⟨ft, hft, tt, htt, heq⟩
      exact Or.inr ⟨ft, hft, tt, htt, heq.symm⟩
    · rintro (h' | ⟨ft, hft, tt, htt, heq⟩)
      · exact absurd h' h
      · exact ⟨ft, hft, tt, htt, heq.symm⟩

/-- Membership reading of the inbox-presence test of
ensure_inbox_project_included. -/
theorem ensure_inbox_any_iff (ps : List ProjectRec) :
    (ps.any (fun p => p.id == some "inbox")) = true ↔ ∃ p ∈ ps, p.id = some "inbox" := by
  rw [List.any_eq_true]
  simp

/-- A truthy date string never normalizes to the empty string. -/
theorem normalize_beq_empty (s : String) (h : s ≠ "") :
    (_normalize_date_input s == "") = false := by
  unfold _normalize_date_input
  split
  · simpa using h
  · have hne : (s ++ "T00:00:00+0000") ≠ "" := by
      intro he
      have hdata : (s ++ "T00:00:00+0000").data = [] := by
        rw [he]
      simp [String.data_append] at hdata
    simpa using hne

/-- C6: an empty (or emptily filtered) task sequence yields exactly the fixed
no-result strings — naming the project for get_tasks with a truthy project
id, the bare "No tasks found." otherwise, and the keyword message for
search_tasks — while a non-empty result is the formatted tasks joined by the
separator line. -/
theorem empty_result_messages :
    ∀ (client : Client) (fromiso : String → Option Int) (now : Int)
      (ov d7 : Bool) (status : Option String) (tags keywords : List String),
      (∀ (p : String) (all : List TaskRec), p ≠ "" →
        fetchAllTasks client (some p) = .ok all →
        all.filter (getTasksKeep fromiso now ov d7 status tags) = [] →
        get_tasks client fromiso now (some p) ov d7 status tags =
          "No tasks found in project '" ++ p ++ "'.") ∧
      (∀ all : List TaskRec,
        fetchAllTasks client none = .ok all →
        all.filter (getTasksKeep fromiso now ov d7 status tags) = [] →
        get_tasks client fromiso now none ov d7 status tags = "No tasks found.") ∧
      (∀ (project_id : Option String) (all : List TaskRec),
        fetchAllTasks client project_id = .ok all →
        all.filter (getTasksKeep fromiso now ov d7 status tags) ≠ [] →
        get_tasks client fromiso now project_id ov d7 status tags =
          "Found tasks:\n\n" ++ String.intercalate "\n---\n"
            ((all.filter (getTasksKeep fromiso now ov d7 status tags)).map format_task)) ∧
      (∀ (project_id : Option String) (all : List TaskRec),
        fetchAllTasks client project_id = .ok all →
        searchFilter keywords tags all = .ok [] →
        search_tasks client keywords project_id tags =
          "No tasks found matching the provided keywords.") ∧
      (∀ (project_id : Option String) (all filtered : List TaskRec),
        fetchAllTasks client project_id = .ok all →
        searchFilter keywords tags all = .ok filtered →
        filtered ≠ [] →
        search_tasks client keywords project_id tags =
          "Found tasks:\n\n" ++ String.intercalate "\n---\n" (filtered.map format_task)) := by
  intro client fromiso now ov d7 status tags keywords
  have hmsg : ∀ p : String, p ≠ "" →
      noTasksMsg (some p) = "No tasks found in project '" ++ p ++ "'." := by
    intro p hp
    simp [noTasksMsg, hp]
  refine ⟨?_, ?_, ?_, ?_, ?_⟩
  · intro p all hp hfetch hfilter
    rw [← hmsg p hp]
    cases all with
    | nil => simp [get_tasks, hfetch]
    | cons a as =>
      simp only [get_tasks, hfetch]
      simp [hfilter]
  · intro all hfetch hfilter
    have : noTasksMsg none = "No tasks found." := rfl
    rw [← this]
    cases all with
    | nil => simp [get_tasks, hfetch]
    | cons a as =>
      simp only [get_tasks, hfetch]
      simp [hfilter]
  · intro project_id all hfetch hfilter
    cases all with
    | nil => simp at hfilter
    | cons a as =>
      simp only [get_tasks, hfetch]
      simp only [List.isEmpty_cons, Bool.false_eq_true, if_false]
      rw [if_neg]
      simp [List.isEmpty_iff, hfilter]
  · intro project_id all hfetch hsf
    simp [search_tasks, hfetch, hsf]
  · intro project_id all filtered hfetch hsf hne
    simp only [search_tasks, hfetch, hsf]
    rw [if_neg]
    simp [List.isEmpty_iff, hne]

/-- C7: aggregation over projects follows the partial-failure policy — with a
successful project listing the collected tasks are the concatenation of each
selected project's contribution, and a project whose per-project fetch fails
contributes nothing while the rest still contribute — and every tool handler
(get_tasks, search_tasks, get_projects, get_project, get_task, create_task,
update_task, create_project, complete_task, delete_task, delete_project)
returns one of its documented text outcomes on every execution path,
whatever the client does: no failure escapes as anything but a string. -/
theorem partial_failure_policy :
    ∀ (client : Client) (fromiso : String → Option Int) (now : Int)
      (project_id : Option String) (ov d7 : Bool) (status : Option String)
      (tags keywords : List String),
      (∀ ps : List ProjectRec, client.projects = .ok ps →
        fetchAllTasks client project_id =
          .ok ((ensure_inbox_project_included ps).flatMap (perProject client project_id))) ∧
      (∀ proj : ProjectRec, (∃ e, client.projectTasks proj.id = .error e) →
        perProject client project_id proj = []) ∧
      ((∃ e, client.projects = .error e ∧
          get_tasks client fromiso now project_id ov d7 status tags =
            "Error getting projects for task retrieval: " ++ e) ∨
        get_tasks client fromiso now project_id ov d7 status tags = noTasksMsg project_id ∨
        ∃ body, get_tasks client fromiso now project_id ov d7 status tags =
          "Found tasks:\n\n" ++ body) ∧
      ((∃ e, client.projects = .error e ∧
          search_tasks client keywords project_id tags =
            "Error getting projects for task search: " ++ e) ∨
        (∃ e, search_tasks client keywords project_id tags =
          "Error searching tasks: " ++ e) ∨
        search_tasks client keywords project_id tags =
          "No tasks found matching the provided keywords." ∨
        (∃ body, search_tasks client keywords project_id tags =
          "Found tasks:\n\n" ++ body)) ∧
      ((∃ e, client.projects = .error e ∧
          get_projects client = "Error fetching projects: " ++ e) ∨
        get_projects client = "No projects found." ∨
        (∃ (n : Nat) (body : String), get_projects client =
          "Found " ++ toString n ++ " projects:\n\n" ++ body)) ∧
      (∀ (fetch : String → Except String ProjectRec) (pid : String),
        (∃ e, get_project fetch pid = "Error fetching project: " ++ e) ∨
        (∃ p, fetch pid = .ok p ∧ get_project fetch pid = format_project p)) ∧
      (∀ (fetch : String → String → Except String TaskRec) (pid tid : String),
        (∃ e, get_task fetch pid tid = "Error fetching task: " ++ e) ∨
        (∃ t, fetch pid tid = .ok t ∧
          get_task fetch pid tid = format_task (attachUrl (some pid) t))) ∧
      (∀ (fromiso2 : String → Option Int) (cclient : CreateTaskArgs → Except String TaskRec)
          (args : CreateTaskArgs),
        create_task fromiso2 cclient args =
            "Invalid priority. Must be 0 (None), 1 (Low), 3 (Medium), or 5 (High)." ∨
        create_task fromiso2 cclient args =
            "Invalid start_date format. Use ISO format: YYYY-MM-DDThh:mm:ss+0000" ∨
        create_task fromiso2 cclient args =
            "Invalid due_date format. Use ISO format: YYYY-MM-DDThh:mm:ss+0000" ∨
        (∃ e, create_task fromiso2 cclient args = "Error creating task: " ++ e) ∨
        (∃ body, create_task fromiso2 cclient args =
          "Task created successfully:\n\n" ++ body)) ∧
      (∀ (fromiso2 : String → Option Int) (uclient : UpdateTaskArgs → Except String TaskRec)
          (args : UpdateTaskArgs),
        update_task fromiso2 uclient args =
            "Invalid priority. Must be 0 (None), 1 (Low), 3 (Medium), or 5 (High)." ∨
        update_task fromiso2 uclient args =
            "Invalid start_date format. Use ISO format: YYYY-MM-DDThh:mm:ss+0000" ∨
        update_task fromiso2 uclient args =
            "Invalid due_date format. Use ISO format: YYYY-MM-DDThh:mm:ss+0000" ∨
        (∃ e, update_task fromiso2 uclient args = "Error updating task: " ++ e) ∨
        (∃ body, update_task fromiso2 uclient args =
          "Task updated successfully:\n\n" ++ body)) ∧
      (∀ (pclient : String → String → String → Except String ProjectRec)
          (name color vm : String),
        create_project pclient name color vm =
            "Invalid view_mode. Must be one of: list, kanban, timeline." ∨
        (∃ e, create_project pclient name color vm = "Error creating project: " ++ e) ∨
        (∃ body, create_project pclient name color vm =
          "Project created successfully:\n\n" ++ body)) ∧
      (∀ (call : String → String → Except String Unit) (pid tid : String),
        (∃ e, complete_task call pid tid = "Error completing task: " ++ e) ∨
        complete_task call pid tid = "Task " ++ tid ++ " marked as complete.") ∧
      (∀ (call : String → String → Except String Unit) (pid tid : String),
        (∃ e, delete_task call pid tid = "Error deleting task: " ++ e) ∨
        delete_task call pid tid = "Task " ++ tid ++ " deleted successfully.") ∧
      (∀ (call : String → Except String Unit) (pid : String),
        (∃ e, delete_project call pid = "Error deleting project: " ++ e) ∨
        delete_project call pid = "Project " ++ pid ++ " deleted successfully.") := by
  intro client fromiso now project_id ov d7 status tags keywords
  refine ⟨?_, ?_, ?_, ?_, ?_, ?_, ?_, ?_, ?_, ?_, ?_, ?_, ?_⟩
  · intro ps hps
    simp [fetchAllTasks, hps, fetchTasks_eq_flatMap]
  · intro proj he
    obtain ⟨e, he⟩ := he
    unfold perProject
    split
    · rfl
    · rw [he]
  · cases hps : client.projects with
    | error e =>
      exact Or.inl ⟨e, rfl, by simp [get_tasks, fetchAllTasks, hps]⟩
    | ok ps =>
      right
      simp only [get_tasks, fetchAllTasks, hps]
      by_cases h1 : (fetchTasks client project_id (ensure_inbox_project_included ps)).isEmpty
      · left; simp [h1]
      · rw [Bool.not_eq_true] at h1
        by_cases h2 : ((fetchTasks client project_id (ensure_inbox_project_included ps)).filter
            (getTasksKeep fromiso now ov d7 status tags)).isEmpty
        · left; simp [h1, h2]
        · rw [Bool.not_eq_true] at h2
          right
          refine ⟨String.intercalate "\n---\n"
            (((fetchTasks client project_id (ensure_inbox_project_included ps)).filter
              (getTasksKeep fromiso now ov d7 status tags)).map format_task), ?_⟩
          simp [h1, h2]
  · cases hps : client.projects with
    | error e =>
      exact Or.inl ⟨e, rfl, by simp [search_tasks, fetchAllTasks, hps]⟩
    | ok ps =>
      right
      simp only [search_tasks, fetchAllTasks, hps]
      cases hsf : searchFilter keywords tags
          (fetchTasks client project_id (ensure_inbox_project_included ps)) with
      | error e => exact Or.inl ⟨e, by simp [hsf]⟩
      | ok filtered =>
        right
        by_cases h2 : filtered.isEmpty
        · left; simp [hsf, h2]
        · rw [Bool.not_eq_true] at h2
          right
          refine ⟨String.intercalate "\n---\n" (filtered.map format_task), ?_⟩
          simp [hsf, h2]
  · cases hps : client.projects with
    | error e => exact Or.inl ⟨e, rfl, by simp [get_projects, hps]⟩
    | ok ps =>
      right
      by_cases h1 : (ensure_inbox_project_included ps).isEmpty
      · left; simp [get_projects, hps, h1]
      · rw [Bool.not_eq_true] at h1
        right
        refine ⟨(ensure_inbox_project_included ps).length,
          format_projects_list 1 (ensure_inbox_project_included ps), ?_⟩
        simp [get_projects, hps, h1]
  · intro fetch pid
    cases h : fetch pid with
    | error e => exact Or.inl ⟨e, by simp [get_project, h]⟩
    | ok p => exact Or.inr ⟨p, rfl, by simp [get_project, h]⟩
  · intro fetch pid tid
    cases h : fetch pid tid with
    | error e => exact Or.inl ⟨e, by simp [get_task, h]⟩
    | ok t => exact Or.inr ⟨t, rfl, by simp [get_task, h]⟩
  · intro fromiso2 cclient args
    by_cases h1 : (!(TaskPriority.is_valid args.priority)) = true
    · left; simp [create_task, h1]
    · rw [Bool.not_eq_true] at h1
      right
      by_cases h2 : dateInvalid fromiso2 (normalizeIfTruthy args.start_date) = true
      · left; simp [create_task, h1, h2]
      · rw [Bool.not_eq_true] at h2
        right
        by_cases h3 : dateInvalid fromiso2 (normalizeIfTruthy args.due_date) = true
        · left; simp [create_task, h1, h2, h3]
        · rw [Bool.not_eq_true] at h3
          right
          cases hc : cclient { args with
              start_date := normalizeIfTruthy args.start_date
              due_date := normalizeIfTruthy args.due_date } with
          | error e => exact Or.inl ⟨e, by simp [create_task, h1, h2, h3, hc]⟩
          | ok task =>
            exact Or.inr ⟨format_task (attachUrl (some args.project_id) task),
              by simp [create_task, h1, h2, h3, hc]⟩
  · intro fromiso2 uclient args
    by_cases h1 : (match args.priority with
        | some p => !(TaskPriority.is_valid p)
        | none => false) = true
    · left; simp [update_task, h1]
    · rw [Bool.not_eq_true] at h1
      right
      by_cases h2 : dateInvalid fromiso2 (normalizeIfTruthy args.start_date) = true
      · left; simp [update_task, h1, h2]
      · rw [Bool.not_eq_true] at h2
        right
        by_cases h3 : dateInvalid fromiso2 (normalizeIfTruthy args.due_date) = true
        · left; simp [update_task, h1, h2, h3]
        · rw [Bool.not_eq_true] at h3
          right
          cases hc : uclient { args with
              start_date := normalizeIfTruthy args.start_date
              due_date := normalizeIfTruthy args.due_date } with
          | error e => exact Or.inl ⟨e, by simp [update_task, h1, h2, h3, hc]⟩
          | ok task =>
            exact Or.inr ⟨format_task (attachUrl (some args.project_id) task),
              by simp [update_task, h1, h2, h3, hc]⟩
  · intro pclient name color vm
    by_cases h1 : (!(["list", "kanban", "timeline"].contains vm)) = true
    · left; simp only [create_project, h1, if_true]
    · rw [Bool.not_eq_true] at h1
      right
      cases hc : pclient name color vm with
      | error e => exact Or.inl ⟨e, by simp only [create_project, h1, Bool.false_eq_true,
          if_false, hc]⟩
      | ok p => exact Or.inr ⟨format_project p, by simp only [create_project, h1,
          Bool.false_eq_true, if_false, hc]⟩
  · intro call pid tid
    cases h : call pid tid with
    | error e => exact Or.inl ⟨e, by simp [complete_task, h]⟩
    | ok u => exact Or.inr (by simp [complete_task, h])
  · intro call pid tid
    cases h : call pid tid with
    | error e => exact Or.inl ⟨e, by simp [delete_task, h]⟩
    | ok u => exact Or.inr (by simp [delete_task, h])
  · intro call pid
    cases h : call pid with
    | error e => exact Or.inl ⟨e, by simp [delete_project, h]⟩
    | ok u => exact Or.inr (by simp [delete_project, h])

/-- C8: create_task and update_task each reject a priority outside 0, 1, 3, 5
and a date string that fails to parse after normalization (start_date checked
before due_date, in both handlers) with the descriptive messages,
independently of the client (so before any upstream call); a date string with
no time part gets "T00:00:00+0000" appended, one with a "T" is left
unchanged; and create_project likewise rejects a view_mode outside list,
kanban, timeline for every client. -/
theorem input_validation_before_client_call :
    (∀ (fromiso : String → Option Int) (client : CreateTaskArgs → Except String TaskRec)
        (args : CreateTaskArgs), TaskPriority.is_valid args.priority = false →
        create_task fromiso client args =
          "Invalid priority. Must be 0 (None), 1 (Low), 3 (Medium), or 5 (High).") ∧
    (∀ (fromiso : String → Option Int) (client : UpdateTaskArgs → Except String TaskRec)
        (args : UpdateTaskArgs) (p : Int),
        args.priority = some p → TaskPriority.is_valid p = false →
        update_task fromiso client args =
          "Invalid priority. Must be 0 (None), 1 (Low), 3 (Medium), or 5 (High).") ∧
    (∀ s : String, s.contains 'T' = false →
        _normalize_date_input s = s ++ "T00:00:00+0000") ∧
    (∀ s : String, s.contains 'T' = true → _normalize_date_input s = s) ∧
    (∀ (fromiso : String → Option Int) (client : CreateTaskArgs → Except String TaskRec)
        (args : CreateTaskArgs) (s : String),
        TaskPriority.is_valid args.priority = true →
        args.start_date = some s → s ≠ "" →
        fromiso ((_normalize_date_input s).replace "Z" "+00:00") = none →
        create_task fromiso client args =
          "Invalid start_date format. Use ISO format: YYYY-MM-DDThh:mm:ss+0000") ∧
    (∀ (fromiso : String → Option Int) (client : CreateTaskArgs → Except String TaskRec)
        (args : CreateTaskArgs) (s : String),
        TaskPriority.is_valid args.priority = true →
        dateInvalid fromiso (normalizeIfTruthy args.start_date) = false →
        args.due_date = some s → s ≠ "" →
        fromiso ((_normalize_date_input s).replace "Z" "+00:00") = none →
        create_task fromiso client args =
          "Invalid due_date format. Use ISO format: YYYY-MM-DDThh:mm:ss+0000") ∧
    (∀ (client : String → String → String → Except String ProjectRec)
        (name color view_mode : String),
        (["list", "kanban", "timeline"].contains view_mode) = false →
        create_project client name color view_mode =
          "Invalid view_mode. Must be one of: list, kanban, timeline.") ∧
    (∀ (fromiso : String → Option Int) (client : UpdateTaskArgs → Except String TaskRec)
        (args : UpdateTaskArgs) (s : String),
        (match args.priority with | some p => TaskPriority.is_valid p | none => true) = true →
        args.start_date = some s → s ≠ "" →
        fromiso ((_normalize_date_input s).replace "Z" "+00:00") = none →
        update_task fromiso client args =
          "Invalid start_date format. Use ISO format: YYYY-MM-DDThh:mm:ss+0000") ∧
    (∀ (fromiso : String → Option Int) (client : UpdateTaskArgs → Except String TaskRec)
        (args : UpdateTaskArgs) (s : String),
        (match args.priority with | some p => TaskPriority.is_valid p | none => true) = true →
        dateInvalid fromiso (normalizeIfTruthy args.start_date) = false →
        args.due_date = some s → s ≠ "" →
        fromiso ((_normalize_date_input s).replace "Z" "+00:00") = none →
        update_task fromiso client args =
          "Invalid due_date format. Use ISO format: YYYY-MM-DDThh:mm:ss+0000") := by
  refine ⟨?_, ?_, ?_, ?_, ?_, ?_, ?_, ?_, ?_⟩
  · intro fromiso client args h
    simp [create_task, h]
  · intro fromiso client args p hp h
    simp [update_task, hp, h]
  · intro s h
    simp [_normalize_date_input, h]
  · intro s h
    simp [_normalize_date_input, h]
  · intro fromiso client args s hv hsd hne hfi
    have hbad : dateInvalid fromiso (normalizeIfTruthy args.start_date) = true := by
      rw [hsd]
      simp only [normalizeIfTruthy]
      rw [if_neg (by simpa using hne)]
      simp [dateInvalid, normalize_beq_empty s hne, hfi]
    simp [create_task, hv, hbad]
  · intro fromiso client args s hv hsdok hdd hne hfi
    have hbad : dateInvalid fromiso (normalizeIfTruthy args.due_date) = true := by
      rw [hdd]
      simp only [normalizeIfTruthy]
      rw [if_neg (by simpa using hne)]
      simp [dateInvalid, normalize_beq_empty s hne, hfi]
    simp [create_task, hv, hsdok, hbad]
  · intro client name color view_mode h
    simp only [create_project, h, Bool.not_false, if_true]
  · intro fromiso client args s hv hsd hne hfi
    have hbad : dateInvalid fromiso (normalizeIfTruthy args.start_date) = true := by
      rw [hsd]
      simp only [normalizeIfTruthy]
      rw [if_neg (by simpa using hne)]
      simp [dateInvalid, normalize_beq_empty s hne, hfi]
    cases hp : args.priority with
    | none => simp [update_task, hp, hbad]
    | some p =>
      rw [hp] at hv
      simp only [] at hv
      simp [update_task, hp, hv, hbad]
  · intro fromiso client args s hv hsdok hdd hne hfi
    have hbad : dateInvalid fromiso (normalizeIfTruthy args.due_date) = true := by
      rw [hdd]
      simp only [normalizeIfTruthy]
      rw [if_neg (by simpa using hne)]
      simp [dateInvalid, normalize_beq_empty s hne, hfi]
    cases hp : args.priority with
    | none => simp [update_task, hp, hsdok, hbad]
    | some p =>
      rw [hp] at hv
      simp only [] at hv
      simp [update_task, hp, hv, hsdok, hbad]

/-- C9: format_task renders the fields in the source's fixed segment order;
every present field appears in the output (id, title and project id always,
with their defaulted placeholders; URL, dates, tags, content and subtasks
when present), an absent optional field contributes the empty segment (no
blank line); priority labels translate 0, 1, 3 and 5 and fall back to the
decimal string; status renders "Completed" exactly for code 2; and subtask
lines are numbered from 1 with a checked box exactly for item status 1. -/
theorem format_task_field_rendering :
    ∀ t : TaskRec,
      (format_task t = seg_id t ++ seg_title t ++ seg_project t ++ seg_url t ++ seg_start t
          ++ seg_due t ++ seg_priority t ++ seg_status t ++ seg_tags t ++ seg_content t
          ++ seg_items t) ∧
      strHasSub (format_task t) ("ID: " ++ t.id.getD "No ID" ++ "\n") = true ∧
      strHasSub (format_task t) ("Title: " ++ t.title.getD "No title" ++ "\n") = true ∧
      strHasSub (format_task t) ("Project ID: " ++ t.projectId.getD "None" ++ "\n") = true ∧
      (∀ u, optTruthy t.url = some u →
        strHasSub (format_task t) ("URL: " ++ u ++ "\n") = true) ∧
      (optTruthy t.url = none → seg_url t = "") ∧
      (∀ d, optTruthy t.startDate = some d →
        strHasSub (format_task t) ("Start Date: " ++ d ++ "\n") = true) ∧
      (optTruthy t.startDate = none → seg_start t = "") ∧
      (∀ d, optTruthy t.dueDate = some d →
        strHasSub (format_task t) ("Due Date: " ++ d ++ "\n") = true) ∧
      (optTruthy t.dueDate = none → seg_due t = "") ∧
      strHasSub (format_task t) ("Priority: " ++ priorityDisplay t.priority ++ "\n") = true ∧
      (TaskPriority.label 0 = "None" ∧ TaskPriority.label 1 = "Low" ∧
        TaskPriority.label 3 = "Medium" ∧ TaskPriority.label 5 = "High") ∧
      (∀ v : Int, TaskPriority.is_valid v = false → TaskPriority.label v = toString v) ∧
      (t.status = some 2 → strHasSub (format_task t) "Status: Completed\n" = true) ∧
      (t.status ≠ some 2 → strHasSub (format_task t) "Status: Active\n" = true) ∧
      (t.tags ≠ [] →
        strHasSub (format_task t) ("Tags: " ++ String.intercalate ", " t.tags ++ "\n") = true) ∧
      (t.tags = [] → seg_tags t = "") ∧
      (∀ c, optTruthy t.content = some c →
        strHasSub (format_task t) ("\nContent:\n" ++ c ++ "\n") = true) ∧
      (optTruthy t.content = none → seg_content t = "") ∧
      (t.items ≠ [] → strHasSub (format_task t)
        ("\nSubtasks (" ++ toString t.items.length ++ "):\n" ++ format_items 1 t.items) = true) ∧
      (t.items = [] → seg_items t = "") ∧
      (∀ (i : Nat) (it : TaskItemRec) (rest : List TaskItemRec),
        format_items i (it :: rest) = toString i ++ ". [" ++ checkbox it.status ++ "] "
          ++ it.title.getD "No title" ++ "\n" ++ format_items (i + 1) rest) ∧
      (∀ st : Option Int, (st = some 1 → checkbox st = "✓") ∧ (st ≠ some 1 → checkbox st = "□")) := by
  intro t
  refine ⟨rfl, ?_, ?_, ?_, ?_, ?_, ?_, ?_, ?_, ?_, ?_, ⟨rfl, rfl, rfl, rfl⟩, ?_, ?_, ?_, ?_,
    ?_, ?_, ?_, ?_, ?_, ?_, ?_⟩
  · exact strHasSub_of_eq (a := "")
      (c := seg_title t ++ seg_project t ++ seg_url t ++ seg_start t ++ seg_due t
        ++ seg_priority t ++ seg_status t ++ seg_tags t ++ seg_content t ++ seg_items t)
      (by simp [format_task, seg_id, String.append_assoc])
  · exact strHasSub_of_eq (a := seg_id t)
      (c := seg_project t ++ seg_url t ++ seg_start t ++ seg_due t
        ++ seg_priority t ++ seg_status t ++ seg_tags t ++ seg_content t ++ seg_items t)
      (by simp [format_task, seg_title, String.append_assoc])
  · exact strHasSub_of_eq (a := seg_id t ++ seg_title t)
      (c := seg_url t ++ seg_start t ++ seg_due t
        ++ seg_priority t ++ seg_status t ++ seg_tags t ++ seg_content t ++ seg_items t)
      (by simp [format_task, seg_project, String.append_assoc])
  · intro u hu
    exact strHasSub_of_eq (a := seg_id t ++ seg_title t ++ seg_project t)
      (c := seg_start t ++ seg_due t
        ++ seg_priority t ++ seg_status t ++ seg_tags t ++ seg_content t ++ seg_items t)
      (by simp [format_task, seg_url, hu, String.append_assoc])
  · intro hu; simp [seg_url, hu]
  · intro d hd
    exact strHasSub_of_eq (a := seg_id t ++ seg_title t ++ seg_project t ++ seg_url t)
      (c := seg_due t ++ seg_priority t ++ seg_status t ++ seg_tags t ++ seg_content t
        ++ seg_items t)
      (by simp [format_task, seg_start, hd, String.append_assoc])
  · intro hd; simp [seg_start, hd]
  · intro d hd
    exact strHasSub_of_eq
      (a := seg_id t ++ seg_title t ++ seg_project t ++ seg_url t ++ seg_start t)
      (c := seg_priority t ++ seg_status t ++ seg_tags t ++ seg_content t ++ seg_items t)
      (by simp [format_task, seg_due, hd, String.append_assoc])
  · intro hd; simp [seg_due, hd]
  · exact strHasSub_of_eq
      (a := seg_id t ++ seg_title t ++ seg_project t ++ seg_url t ++ seg_start t ++ seg_due t)
      (c := seg_status t ++ seg_tags t ++ seg_content t ++ seg_items t)
      (by simp [format_task, seg_priority, String.append_assoc])
  · intro v hv
    simp only [TaskPriority.is_valid, Bool.or_eq_false_iff, beq_eq_false_iff_ne] at hv
    obtain ⟨⟨⟨h0, h1⟩, h3⟩, h5⟩ := hv
    simp [TaskPriority.label, h0, h1, h3, h5]
  · intro hst
    exact strHasSub_of_eq
      (a := seg_id t ++ seg_title t ++ seg_project t ++ seg_url t ++ seg_start t ++ seg_due t
        ++ seg_priority t)
      (c := seg_tags t ++ seg_content t ++ seg_items t)
      (by simp [format_task, seg_status, hst, String.append_assoc])
  · intro hst
    have hb : (t.status == some 2) = false := by simpa using hst
    exact strHasSub_of_eq
      (a := seg_id t ++ seg_title t ++ seg_project t ++ seg_url t ++ seg_start t ++ seg_due t
        ++ seg_priority t)
      (c := seg_tags t ++ seg_content t ++ seg_items t)
      (by simp [format_task, seg_status, hb, String.append_assoc])
  · intro htags
    have hb : t.tags.isEmpty = false := by simpa [List.isEmpty_iff] using htags
    exact strHasSub_of_eq
      (a := seg_id t ++ seg_title t ++ seg_project t ++ seg_url t ++ seg_start t ++ seg_due t
        ++ seg_priority t ++ seg_status t)
      (c := seg_content t ++ seg_items t)
      (by simp [format_task, seg_tags, hb, String.append_assoc])
  · intro htags; simp [seg_tags, htags]
  · intro c hc
    exact strHasSub_of_eq
      (a := seg_id t ++ seg_title t ++ seg_project t ++ seg_url t ++ seg_start t ++ seg_due t
        ++ seg_priority t ++ seg_status t ++ seg_tags t)
      (c := seg_items t)
      (by simp [format_task, seg_content, hc, String.append_assoc])
  · intro hc; simp [seg_content, hc]
  · intro hitems
    have hb : t.items.isEmpty = false := by simpa [List.isEmpty_iff] using hitems
    exact strHasSub_of_eq
      (a := seg_id t ++ seg_title t ++ seg_project t ++ seg_url t ++ seg_start t ++ seg_due t
        ++ seg_priority t ++ seg_status t ++ seg_tags t ++ seg_content t)
      (c := "")
      (by simp [format_task, seg_items, hb, String.append_assoc])
  · intro hitems; simp [seg_items, hitems]
  · intro i it rest
    simp [format_items, String.append_assoc]
  · intro st
    constructor
    · intro h; simp [checkbox, h]
    · intro h
      have hb : (st == some 1) = false := by simpa using h
      simp [checkbox, hb]

/-- C10: ensure_inbox_project_included leaves a list that already holds an
entry with id "inbox" completely unchanged, otherwise appends exactly the
record with id "inbox" and name "Inbox" at the end (existing entries and
order preserved), is idempotent, and always leaves an inbox entry present. -/
theorem ensure_inbox_idempotent_minimal :
    ∀ ps : List ProjectRec,
      ((∃ p ∈ ps, p.id = some "inbox") → ensure_inbox_project_included ps = ps) ∧
      ((¬ ∃ p ∈ ps, p.id = some "inbox") →
        ensure_inbox_project_included ps = ps ++ [inboxProject]) ∧
      ensure_inbox_project_included (ensure_inbox_project_included ps) =
        ensure_inbox_project_included ps ∧
      ∃ p ∈ ensure_inbox_project_included ps, p.id = some "inbox" := by
  intro ps
  by_cases h : ∃ p ∈ ps, p.id = some "inbox"
  · have hb : (ps.any (fun p => p.id == some "inbox")) = true := (ensure_inbox_any_iff ps).mpr h
    have he : ensure_inbox_project_included ps = ps := by
      simp [ensure_inbox_project_included, hb]
    refine ⟨fun _ => he, fun hc => absurd h hc, ?_, ?_⟩
    · rw [he, he]
    · rw [he]; exact h
  · have hb : (ps.any (fun p => p.id == some "inbox")) = false := by
      rw [Bool.eq_false_iff]
      intro hc
      exact h ((ensure_inbox_any_iff ps).mp hc)
    have he : ensure_inbox_project_included ps = ps ++ [inboxProject] := by
      simp [ensure_inbox_project_included, hb, inboxProject]
    have hmem : ∃ p ∈ ps ++ [inboxProject], p.id = some "inbox" :=
      ⟨inboxProject, by simp, rfl⟩
    have hb2 : ((ps ++ [inboxProject]).any (fun p => p.id == some "inbox")) = true :=
      (ensure_inbox_any_iff _).mpr hmem
    refine ⟨fun hc => absurd hc h, fun _ => he, ?_, ?_⟩
    · rw [he]
      simp [ensure_inbox_project_included, hb2]
    · rw [he]; exact hmem
